import Mathlib

/-!
Verification of the speechReader session store and word matcher.

The definitions below are a shallow embedding of `src/app.py`:
pure string helpers model the Python `str` methods the code uses,
the Flask/SQLAlchemy routes become pure functions from an explicit
in-memory `Store` to a new `Store` paired with an HTTP-level response,
and timestamps / fresh ids are passed in as parameters.  Floats are
modelled as rationals; `round(x, 2)` becomes `round2` (the exact
half-way tie rule is immaterial to every statement proved here, since
code and specification always apply the same rounding expression).
-/

namespace SpeechReader

/-- Python whitespace characters recognised by `str.split` / `str.strip`
(space, tab, newline, carriage return, form feed, vertical tab). -/
def isPySpace (c : Char) : Bool :=
  c = ' ' || c = '\t' || c = '\n' || c = '\r' || c = '\x0c' || c = '\x0b'

/-- ASCII lowercasing of one character, as Python `str.lower` acts on the
ASCII range (all inputs appearing in the code and its tests are ASCII). -/
def lowerChar (c : Char) : Char :=
  if 'A' ≤ c ∧ c ≤ 'Z' then Char.ofNat (c.toNat + 32) else c

/-- Python `str.lower`, restricted to the ASCII range. -/
def pyLower (s : String) : String :=
  ⟨s.data.map lowerChar⟩

/-- Python `str.strip()`: drop leading and trailing whitespace. -/
def pyStrip (s : String) : String :=
  ⟨((s.data.dropWhile isPySpace).reverse.dropWhile isPySpace).reverse⟩

/-- Helper for `pySplit`: walk the characters, accumulating the current
word (in reverse) and emitting it whenever a whitespace run starts. -/
def splitGo : List Char → List Char → List (List Char)
  | [], [] => []
  | [], cur => [cur.reverse]
  | c :: rest, cur =>
    if isPySpace c then
      match cur with
      | [] => splitGo rest []
      | _ => cur.reverse :: splitGo rest []
    else
      splitGo rest (c :: cur)

/-- Python `str.split()` with no argument: split on runs of whitespace,
discarding empty pieces. -/
def pySplit (s : String) : List String :=
  (splitGo s.data []).map fun cs => ⟨cs⟩

/-- Helper for `pyReplace`: fuel-indexed scan replacing each leftmost,
non-overlapping occurrence of `pat`.  The fuel (the length of the text)
suffices because `pat` is non-empty at every call site. -/
def replaceGo : Nat → List Char → List Char → List Char → List Char
  | 0, s, _, _ => s
  | fuel + 1, s, pat, rep =>
    match s with
    | [] => []
    | c :: rest =>
      if pat.isPrefixOf (c :: rest) then
        rep ++ replaceGo fuel ((c :: rest).drop pat.length) pat rep
      else
        c :: replaceGo fuel rest pat rep

/-- Python `str.replace(pat, rep)` for a non-empty `pat`: replace every
non-overlapping occurrence, scanning left to right.  (The code only ever
replaces the non-empty patterns "ing", "ed" and "th", so the Python
behaviour on an empty pattern is irrelevant; we return `s` there.) -/
def pyReplace (s pat rep : String) : String :=
  if pat.data.isEmpty then s
  else ⟨replaceGo s.data.length s.data pat.data rep.data⟩

/-- `_words_match` (app.py lines 320-335): exact equality, else membership
of `expected` in the three single-rule normalisations of `spoken`. -/
def words_match (spoken expected : String) : Bool :=
  if spoken = expected then
    true
  else
    let variations : List String :=
      [ pyReplace spoken "ing" "in",
        pyReplace spoken "ed" "d",
        pyReplace spoken "th" "f" ]
    decide (expected ∈ variations)

/-- Python `round(q, 2)`: round to two decimal places.  (Python uses
banker's rounding on floats; no statement below depends on the half-way
tie rule, because specification and code apply the identical `round2`.) -/
def round2 (q : ℚ) : ℚ :=
  ((⌊q * 100 + 1 / 2⌋ : ℤ) : ℚ) / 100

/-- `ReadingSession` row (app.py lines 51-76).  `current_word_index` is an
unconstrained integer: `update_progress` assigns the client value with no
bounds check. -/
structure ReadingSession where
  id : String
  filename : String
  text_content : String
  created_at : Nat
  completed_at : Option Nat
  total_words : Nat
  current_word_index : Int
deriving DecidableEq, Repr

/-- `ReadingProgress` row (app.py lines 78-89). -/
structure ReadingProgress where
  id : Nat
  session_id : String
  word_index : Int
  expected_word : String
  spoken_word : String
  is_correct : Bool
  timestamp : Nat
  confidence_score : ℚ
deriving DecidableEq, Repr

/-- The database, as an explicit value: the two tables. -/
structure Store where
  sessions : List ReadingSession
  progress : List ReadingProgress
deriving DecidableEq, Repr

/-- Primary-key lookup, `ReadingSession.query.get(session_id)`.  The
`id` column is the primary key, so at most one row matches. -/
def findSession (st : Store) (sid : String) : Option ReadingSession :=
  st.sessions.find? fun s => s.id == sid

/-- Next auto-incrementing `ReadingProgress.id`. -/
def nextProgressId (st : Store) : Nat :=
  st.progress.length + 1

/-- `progress_percentage` as computed by `ReadingSession.to_dict`
(app.py line 75): the guarded expression
`round(((current_word_index + 1) / total_words) * 100, 2) if total_words > 0 else 0`. -/
def progress_percentage (s : ReadingSession) : ℚ :=
  if s.total_words > 0 then
    round2 (((s.current_word_index : ℚ) + 1) / (s.total_words : ℚ) * 100)
  else 0

/-- Response of a session-creation route: the success JSON carries the
new session id (plus a redirect URL built from it), failures carry an
HTTP status and the error message. -/
inductive UploadResp where
  | ok (session_id : String)
  | err (status : Nat) (msg : String)
deriving DecidableEq, Repr

/-- `upload_file` (app.py lines 109-156), non-Vercel path.  `filePresent`
models `'file' in request.files`; `filename`/`content` are the uploaded
name and decoded text; `now`/`newId` stand for `datetime.utcnow()` and
the generated uuid.  The filename stored via `secure_filename` is an
external collaborator that only rewrites the display name; we keep the
name as given.  Note: the content is split only to count words — there
is no emptiness check on this path. -/
def upload_file (filePresent : Bool) (filename content : String)
    (now : Nat) (newId : String) (st : Store) : Store × UploadResp :=
  if !filePresent then
    (st, .err 400 "No file selected")
  else if filename = "" then
    (st, .err 400 "No file selected")
  else if ".txt".data.isSuffixOf (pyLower filename).data then
    let words := pySplit content
    let sess : ReadingSession :=
      { id := newId, filename := filename, text_content := content,
        created_at := now, completed_at := none,
        total_words := words.length, current_word_index := 0 }
    ({ st with sessions := st.sessions ++ [sess] }, .ok newId)
  else
    (st, .err 400 "Please upload a .txt file")

/-- JSON body of the `/upload-text` route; `none` models an absent key. -/
structure TextBody where
  text : Option String
  filename : Option String
deriving DecidableEq, Repr

/-- `upload_text` (app.py lines 158-206), non-Vercel path.  Mirrors the
guard chain: absent/empty `text` (both falsy in Python), then the
stripped text, then the word count. -/
def upload_text (body : TextBody) (now : Nat) (newId : String)
    (st : Store) : Store × UploadResp :=
  match body.text with
  | none => (st, .err 400 "No text provided")
  | some t =>
    if t = "" then
      (st, .err 400 "No text provided")
    else
      let text_content := pyStrip t
      let filename := body.filename.getD "Pasted Text"
      if text_content = "" then
        (st, .err 400 "Text cannot be empty")
      else
        let words := pySplit text_content
        if words.length = 0 then
          (st, .err 400 "Text must contain at least one word")
        else
          let sess : ReadingSession :=
            { id := newId, filename := filename, text_content := text_content,
              created_at := now, completed_at := none,
              total_words := words.length, current_word_index := 0 }
          ({ st with sessions := st.sessions ++ [sess] }, .ok newId)

/-- JSON body of the progress route; `session_id` is `data.get('session_id')`
(`none` when the key is absent), the words default to `''` via
`data.get(..., '')` and are kept as plain strings here. -/
structure ProgressBody where
  session_id : Option String
  word_index : Int
  spoken_word : String
  expected_word : String
  confidence : ℚ
deriving DecidableEq, Repr

/-- Response of the progress route. -/
inductive ProgressResp where
  | ok (is_correct : Bool) (progress_percentage : ℚ)
  | err (status : Nat) (msg : String)
deriving DecidableEq, Repr

/-- `update_progress` (app.py lines 238-282), non-Vercel path.  The
`session_id` taken from the URL is immediately shadowed by the body
field, so the URL value is dead.  A failed lookup raises `NotFound`
inside the `try`, and the blanket `except Exception` turns it into the
generic 500 response.  On success the cursor write, the verdict and the
appended row are committed BEFORE the percentage is computed, so a
session with `total_words == 0` still gets the row and the cursor
update but the response degenerates to the generic 500
(`ZeroDivisionError` caught by the same handler). -/
def update_progress (url_session_id : String) (body : ProgressBody)
    (now : Nat) (st : Store) : Store × ProgressResp :=
  match body.session_id with
  | none => (st, .err 500 "Failed to update progress")
  | some sid =>
    match findSession st sid with
    | none => (st, .err 500 "Failed to update progress")
    | some sess =>
      let sess' := { sess with current_word_index := body.word_index }
      let is_correct :=
        words_match (pyLower body.spoken_word) (pyLower body.expected_word)
      let row : ReadingProgress :=
        { id := nextProgressId st, session_id := sid,
          word_index := body.word_index,
          expected_word := body.expected_word,
          spoken_word := body.spoken_word,
          is_correct := is_correct, timestamp := now,
          confidence_score := body.confidence }
      let st' : Store :=
        { sessions := st.sessions.map fun s => if s.id == sid then sess' else s,
          progress := st.progress ++ [row] }
      if sess.total_words = 0 then
        (st', .err 500 "Failed to update progress")
      else
        (st', .ok is_correct
          (round2 (((body.word_index : ℚ) + 1) / (sess.total_words : ℚ) * 100)))

/-- Statistics JSON returned by `complete_session`. -/
structure SessionStatistics where
  accuracy : ℚ
  total_words : Nat
  correct_words : Nat
  total_attempts : Nat
deriving DecidableEq, Repr

/-- Response of the completion route. -/
inductive CompleteResp where
  | ok (statistics : SessionStatistics)
  | err (status : Nat) (msg : String)
deriving DecidableEq, Repr

/-- `complete_session` (app.py lines 284-318), non-Vercel path.  As in
`update_progress`, a missing session surfaces as the generic 500.  The
`completed_at` column is overwritten with `now` unconditionally, then
the per-session counts are taken. -/
def complete_session (session_id : String) (now : Nat)
    (st : Store) : Store × CompleteResp :=
  match findSession st session_id with
  | none => (st, .err 500 "Failed to complete session")
  | some sess =>
    let sess' := { sess with completed_at := some now }
    let st' : Store :=
      { st with sessions :=
          st.sessions.map fun s => if s.id == session_id then sess' else s }
    let correct_words :=
      (st'.progress.filter fun p => p.session_id == session_id && p.is_correct).length
    let total_attempts :=
      (st'.progress.filter fun p => p.session_id == session_id).length
    let accuracy : ℚ :=
      if total_attempts > 0 then
        (correct_words : ℚ) / (total_attempts : ℚ) * 100
      else 0
    (st', .ok { accuracy := round2 accuracy,
                total_words := sess.total_words,
                correct_words := correct_words,
                total_attempts := total_attempts })

/-- Extract the verdict carried by a progress response, if any. -/
def ProgressResp.verdict : ProgressResp → Option Bool
  | .ok b _ => some b
  | .err _ _ => none

/-- A progress row with its confidence score blanked, for statements that
compare stored rows up to the confidence column. -/
def eraseConfidence (p : ReadingProgress) : ReadingProgress :=
  { p with confidence_score := 0 }

/-- A 400 response, as produced by the validation guards of the two
session-creation routes. -/
def UploadResp.isValidationFailure : UploadResp → Bool
  | .err 400 _ => true
  | _ => false

/-- Rounding the zero accuracy returns zero. -/
lemma round2_zero : round2 0 = 0 := by
  rw [round2]
  norm_num

/-- If `find?` located `s` in `l` by its id, then after rewriting every
id-matching element to a record `t` with the same id, `find?` locates `t`. -/
lemma find?_map_update (l : List ReadingSession) (sid : String)
    (s t : ReadingSession) (ht : t.id = s.id)
    (h : l.find? (fun x => x.id == sid) = some s) :
    (l.map fun x => if x.id == sid then t else x).find?
      (fun x => x.id == sid) = some t := by
  induction l with
  | nil => simp [List.find?] at h
  | cons a l ih =>
    by_cases ha : (a.id == sid) = true
    · have hs : a = s := by
        have := List.find?_cons_of_pos (p := fun x => x.id == sid) l ha
        rw [this] at h
        exact (Option.some.injEq _ _).mp h
      have htid : (t.id == sid) = true := by
        have haid : a.id = sid := by simpa using ha
        simp [ht, ← hs, haid]
      rw [List.map_cons, if_pos ha]
      exact List.find?_cons_of_pos _ htid
    · have h' : l.find? (fun x => x.id == sid) = some s := by
        rw [List.find?_cons_of_neg _ (by simpa using ha)] at h
        exact h
      rw [List.map_cons, if_neg ha,
        List.find?_cons_of_neg _ (by simpa using ha)]
      exact ih h'

/-- C1: `words_match spoken expected` is true exactly when `spoken`
equals `expected`, or `expected` equals one of the three candidates
obtained from `spoken` by replacing every occurrence of "ing" with "in",
of "ed" with "d", or of "th" with "f" — one rule at a time, never
composed. -/
theorem words_match_single_rule_iff (spoken expected : String) :
    words_match spoken expected = true ↔
      spoken = expected ∨
        expected = pyReplace spoken "ing" "in" ∨
        expected = pyReplace spoken "ed" "d" ∨
        expected = pyReplace spoken "th" "f" := by
  unfold words_match
  by_cases h : spoken = expected
  · simp [h]
  · simp [h]

/-- C2: the spec's example table is on the wrong side of the rules.  The
code rewrites the SPOKEN word, so `words_match "runnin" "running"`,
`words_match "walkd" "walked"` and `words_match "free" "three"` are all
false (the repository's own tests assert them true), while the reversed
calls are true; `words_match "hello" "world"` is false as claimed. -/
theorem words_match_spec_examples_eval :
    words_match "runnin" "running" = false ∧
      words_match "walkd" "walked" = false ∧
      words_match "free" "three" = false ∧
      words_match "hello" "world" = false ∧
      words_match "running" "runnin" = true ∧
      words_match "walked" "walkd" = true ∧
      words_match "three" "free" = true := by
  decide

/-- C8: the matcher is reflexive — a word always matches itself (the
exact-equality branch fires first; non-emptiness is not even needed). -/
theorem words_match_refl (x : String) (hx : x ≠ "") :
    words_match x x = true := by
  simp [words_match]

/-- Witness for C8 at the concrete word "hello". -/
theorem words_match_refl_witness :
    "hello" ≠ "" ∧ words_match "hello" "hello" = true :=
  ⟨by decide, words_match_refl "hello" (by decide)⟩

/-- C7: the serialized `progress_percentage` is
`round2 ((current_word_index + 1) / total_words * 100)` whenever
`total_words > 0`, and `0` when `total_words = 0`, so serialization
never divides by zero. -/
theorem progress_percentage_spec (s : ReadingSession) :
    (s.total_words > 0 →
      progress_percentage s =
        round2 (((s.current_word_index : ℚ) + 1) / (s.total_words : ℚ) * 100)) ∧
    (s.total_words = 0 → progress_percentage s = 0) := by
  constructor
  · intro h
    simp [progress_percentage, h]
  · intro h
    simp [progress_percentage, h]

/-- Witness for C7: a six-word session at cursor 0 serializes to
16.67%, and a zero-word session serializes to 0. -/
theorem progress_percentage_spec_witness :
    progress_percentage
        { id := "s1", filename := "t.txt",
          text_content := "hello world this is a test",
          created_at := 0, completed_at := none,
          total_words := 6, current_word_index := 0 } = 1667 / 100 ∧
    progress_percentage
        { id := "s2", filename := "e.txt", text_content := "",
          created_at := 0, completed_at := none,
          total_words := 0, current_word_index := 0 } = 0 := by
  constructor
  · rw [(progress_percentage_spec _).1 (by decide)]
    rw [round2]
    norm_num
  · exact (progress_percentage_spec _).2 rfl

/-- C3 (amended): for an existing session with at least one word, the
progress route lowercases both words before matching, sets the cursor to
the client's `word_index` unconditionally (any integer), appends exactly
one progress row carrying that verdict, and answers with the verdict and
`round2 ((word_index + 1) / total_words * 100)`. -/
theorem update_progress_spec (st : Store) (url sid : String)
    (s : ReadingSession) (body : ProgressBody) (now : Nat)
    (hsid : body.session_id = some sid)
    (hs : findSession st sid = some s)
    (hw : s.total_words > 0) :
    (update_progress url body now st).2 =
      ProgressResp.ok
        (words_match (pyLower body.spoken_word) (pyLower body.expected_word))
        (round2 (((body.word_index : ℚ) + 1) / (s.total_words : ℚ) * 100)) ∧
    findSession (update_progress url body now st).1 sid =
      some { s with current_word_index := body.word_index } ∧
    (update_progress url body now st).1.progress =
      st.progress ++
        [{ id := nextProgressId st, session_id := sid,
           word_index := body.word_index,
           expected_word := body.expected_word,
           spoken_word := body.spoken_word,
           is_correct :=
             words_match (pyLower body.spoken_word) (pyLower body.expected_word),
           timestamp := now, confidence_score := body.confidence }] := by
  have hw' : ¬ s.total_words = 0 := Nat.pos_iff_ne_zero.mp hw
  unfold update_progress
  simp only [hsid, hs, if_neg hw']
  refine ⟨trivial, ?_, trivial⟩
  unfold findSession at hs ⊢
  exact find?_map_update st.sessions sid s
    { s with current_word_index := body.word_index } rfl hs

/-- A session persisted with zero words, as the file-upload route
produces for a whitespace-only `.txt` file. -/
def zeroWordsSession : ReadingSession :=
  { id := "s0", filename := "empty.txt", text_content := "   ",
    created_at := 0, completed_at := none,
    total_words := 0, current_word_index := 0 }

/-- A store holding only the zero-word session. -/
def zeroWordsStore : Store :=
  { sessions := [zeroWordsSession], progress := [] }

/-- A well-formed progress request against the zero-word session. -/
def zeroWordsBody : ProgressBody :=
  { session_id := some "s0", word_index := 0,
    spoken_word := "hello", expected_word := "hello", confidence := 1 }

/-- C3 counterexample: against an existing session whose `total_words`
is 0 (creatable through the file-upload route), the progress route does
NOT return the verdict and percentage — the `ZeroDivisionError` is
caught and surfaces as the generic 500 — even though the progress row
was already committed. -/
theorem update_progress_zero_words_counterexample :
    (update_progress "s0" zeroWordsBody 1 zeroWordsStore).2 =
      ProgressResp.err 500 "Failed to update progress" ∧
    ProgressResp.verdict (update_progress "s0" zeroWordsBody 1 zeroWordsStore).2 =
      none ∧
    (update_progress "s0" zeroWordsBody 1 zeroWordsStore).1.progress.length = 1 := by
  decide

/-- A six-word session used by several witnesses. -/
def sixWordsSession : ReadingSession :=
  { id := "s1", filename := "test.txt",
    text_content := "hello world this is a test",
    created_at := 0, completed_at := none,
    total_words := 6, current_word_index := 0 }

/-- A store holding only the six-word session, with no progress yet. -/
def sixWordsStore : Store :=
  { sessions := [sixWordsSession], progress := [] }

/-- Progress request sent for word 0 of the six-word session; the spoken
word arrives capitalized to exercise the lowercasing. -/
def sixWordsBody : ProgressBody :=
  { session_id := some "s1", word_index := 0,
    spoken_word := "Hello", expected_word := "hello", confidence := 1 }

/-- Witness for C3: on the fresh six-word session, word 0 spoken as
"Hello" against "hello" is judged correct and the response carries
`16.67 = round2 (1/6 * 100)`. -/
theorem update_progress_spec_witness :
    (update_progress "s1" sixWordsBody 3 sixWordsStore).2 =
      ProgressResp.ok true (1667 / 100) ∧
    findSession (update_progress "s1" sixWordsBody 3 sixWordsStore).1 "s1" =
      some { id := "s1", filename := "test.txt",
             text_content := "hello world this is a test",
             created_at := 0, completed_at := none,
             total_words := 6, current_word_index := 0 } ∧
    (update_progress "s1" sixWordsBody 3 sixWordsStore).1.progress =
      [{ id := 1, session_id := "s1", word_index := 0,
         expected_word := "hello", spoken_word := "Hello",
         is_correct := true, timestamp := 3, confidence_score := 1 }] := by
  have h := update_progress_spec sixWordsStore "s1" "s1" sixWordsSession
    sixWordsBody 3 rfl (by decide) (by decide)
  refine ⟨?_, ?_, ?_⟩
  · rw [h.1,
      show words_match (pyLower sixWordsBody.spoken_word)
          (pyLower sixWordsBody.expected_word) = true from by decide]
    congr 1
    rw [round2]
    simp only [sixWordsBody, sixWordsSession]
    norm_num
  · rw [h.2.1]
    rfl
  · rw [h.2.2,
      show words_match (pyLower sixWordsBody.spoken_word)
          (pyLower sixWordsBody.expected_word) = true from by decide]
    rfl

/-- C4: completing an existing session reports
`accuracy = round2 (K / N * 100)` over its `N` progress rows of which
`K` are correct (0 when `N = 0`), together with `correct_words = K` and
`total_attempts = N`, and unconditionally overwrites `completed_at`
with the current time — a repeat call raises no error. -/
theorem complete_session_spec (st : Store) (sid : String)
    (s : ReadingSession) (now : Nat) (K N : Nat)
    (hs : findSession st sid = some s)
    (hK : K = (st.progress.filter
      fun p => p.session_id == sid && p.is_correct).length)
    (hN : N = (st.progress.filter fun p => p.session_id == sid).length) :
    (complete_session sid now st).2 =
      CompleteResp.ok
        { accuracy := if N = 0 then 0 else round2 ((K : ℚ) / (N : ℚ) * 100),
          total_words := s.total_words,
          correct_words := K, total_attempts := N } ∧
    findSession (complete_session sid now st).1 sid =
      some { s with completed_at := some now } := by
  subst hK hN
  unfold complete_session
  simp only [hs]
  constructor
  · by_cases h0 :
      (st.progress.filter fun p => p.session_id == sid).length = 0
    · simp [h0, round2_zero]
    · simp [h0, Nat.pos_of_ne_zero h0]
  · unfold findSession at hs ⊢
    exact find?_map_update st.sessions sid s
      { s with completed_at := some now } rfl hs

/-- Store for the C4 witness: the six-word session with two progress
rows of its own (one correct) and one row of a different session. -/
def statsStore : Store :=
  { sessions := [sixWordsSession],
    progress :=
      [ { id := 1, session_id := "s1", word_index := 0,
          expected_word := "hello", spoken_word := "hello",
          is_correct := true, timestamp := 1, confidence_score := 1 },
        { id := 2, session_id := "s1", word_index := 1,
          expected_word := "world", spoken_word := "word",
          is_correct := false, timestamp := 2, confidence_score := 1 },
        { id := 3, session_id := "zz", word_index := 0,
          expected_word := "a", spoken_word := "a",
          is_correct := true, timestamp := 3, confidence_score := 1 } ] }

/-- Witness for C4: with 2 attempts, 1 correct, the statistics are
`accuracy = 50`, `correct_words = 1`, `total_attempts = 2` and the
completion timestamp is written; with 0 attempts the accuracy is 0. -/
theorem complete_session_spec_witness :
    (complete_session "s1" 9 statsStore).2 =
      CompleteResp.ok
        { accuracy := 50, total_words := 6,
          correct_words := 1, total_attempts := 2 } ∧
    findSession (complete_session "s1" 9 statsStore).1 "s1" =
      some { id := "s1", filename := "test.txt",
             text_content := "hello world this is a test",
             created_at := 0, completed_at := some 9,
             total_words := 6, current_word_index := 0 } ∧
    (complete_session "s1" 9 sixWordsStore).2 =
      CompleteResp.ok
        { accuracy := 0, total_words := 6,
          correct_words := 0, total_attempts := 0 } := by
  have h := complete_session_spec statsStore "s1" sixWordsSession 9 1 2
    (by decide) (by decide) (by decide)
  have h0 := complete_session_spec sixWordsStore "s1" sixWordsSession 9 0 0
    (by decide) rfl rfl
  refine ⟨?_, ?_, ?_⟩
  · rw [h.1]
    norm_num [round2, sixWordsSession]
  · rw [h.2]
    rfl
  · rw [h0.1]
    norm_num [sixWordsSession]

/-- C5 counterexample: uploading a whitespace-only `.txt` file is NOT
rejected — the file route has no emptiness check — and it persists a
session with `total_words = 0`. -/
theorem upload_file_empty_content_counterexample :
    (upload_file true "empty.txt" "   " 7 "id1" ⟨[], []⟩).2 =
      UploadResp.ok "id1" ∧
    (upload_file true "empty.txt" "   " 7 "id1" ⟨[], []⟩).1.sessions =
      [{ id := "id1", filename := "empty.txt", text_content := "   ",
         created_at := 7, completed_at := none,
         total_words := 0, current_word_index := 0 }] := by
  decide

/-- C5 (amended): only the pasted-text route validates emptiness — it
rejects text that is absent, empty, stripping to empty or splitting to
zero words with a 400 and persists nothing — while the file route, for
any non-empty `.txt` filename whose content splits to zero words,
persists a session with `total_words = 0`. -/
theorem session_creation_validation (st : Store) :
    (∀ (body : TextBody) (now : Nat) (nid : String),
        body.text = none ∨ body.text = some "" ∨
          pyStrip (body.text.getD "") = "" ∨
          pySplit (pyStrip (body.text.getD "")) = [] →
        (upload_text body now nid st).1 = st ∧
          UploadResp.isValidationFailure (upload_text body now nid st).2 = true) ∧
    (∀ (filename content : String) (now : Nat) (nid : String),
        filename ≠ "" →
        ".txt".data.isSuffixOf (pyLower filename).data = true →
        pySplit content = [] →
        (upload_file true filename content now nid st).2 = UploadResp.ok nid ∧
          (upload_file true filename content now nid st).1.sessions =
            st.sessions ++
              [{ id := nid, filename := filename, text_content := content,
                 created_at := now, completed_at := none,
                 total_words := 0, current_word_index := 0 }]) := by
  constructor
  · intro body now nid hbad
    unfold upload_text
    cases hbt : body.text with
    | none => simp [UploadResp.isValidationFailure]
    | some t =>
      rw [hbt] at hbad
      by_cases h1 : t = ""
      · simp only [if_pos h1]
        simp [UploadResp.isValidationFailure]
      · simp only [if_neg h1]
        by_cases h2 : pyStrip t = ""
        · simp only [if_pos h2]
          simp [UploadResp.isValidationFailure]
        · simp only [if_neg h2]
          by_cases h3 : (pySplit (pyStrip t)).length = 0
          · simp only [if_pos h3]
            simp [UploadResp.isValidationFailure]
          · exfalso
            rcases hbad with h | h | h | h
            · exact Option.noConfusion h
            · exact h1 (Option.some.inj h)
            · exact h2 h
            · exact h3 (by rw [show pySplit (pyStrip t) = [] from h]; rfl)
  · intro filename content now nid hfn hsuf hsplit
    unfold upload_file
    simp only [Bool.not_true, Bool.false_eq_true, if_false, if_neg hfn,
      if_pos hsuf, hsplit, List.length_nil]
    exact ⟨trivial, trivial⟩

/-- Witness for C5: whitespace-only pasted text is rejected with a 400
and no session, while a whitespace-only `.txt` file upload succeeds and
persists a zero-word session. -/
theorem session_creation_validation_witness :
    (upload_text { text := some "   ", filename := none } 4 "t1"
        ⟨[], []⟩).1 = (⟨[], []⟩ : Store) ∧
    UploadResp.isValidationFailure
      (upload_text { text := some "   ", filename := none } 4 "t1"
        ⟨[], []⟩).2 = true ∧
    (upload_file true "blank.txt" " \t " 5 "f1" ⟨[], []⟩).2 =
      UploadResp.ok "f1" ∧
    (upload_file true "blank.txt" " \t " 5 "f1" ⟨[], []⟩).1.sessions =
      [{ id := "f1", filename := "blank.txt", text_content := " \t ",
         created_at := 5, completed_at := none,
         total_words := 0, current_word_index := 0 }] := by
  have h1 := (session_creation_validation ⟨[], []⟩).1
    { text := some "   ", filename := none } 4 "t1"
    (Or.inr (Or.inr (Or.inl (by decide))))
  have h2 := (session_creation_validation ⟨[], []⟩).2
    "blank.txt" " \t " 5 "f1" (by decide) (by decide) (by decide)
  exact ⟨h1.1, h1.2, h2.1, h2.2⟩

/-- A store holding one unrelated session, to observe that a lookup miss
leaves the store untouched. -/
def otherStore : Store :=
  { sessions :=
      [{ id := "other", filename := "o.txt", text_content := "one two",
         created_at := 0, completed_at := none,
         total_words := 2, current_word_index := 0 }],
    progress := [] }

/-- C6: with an unknown session id, both mutation routes leave the store
unchanged but answer with the generic 500 internal error — the
`NotFound` raised by `get_or_404` is swallowed by the blanket
`except Exception`, contradicting the 404 the claim (and the repo's own
test) expects. -/
theorem unknown_session_id_eval :
    update_progress "invalid-id"
        { session_id := some "invalid-id", word_index := 0,
          spoken_word := "test", expected_word := "test", confidence := 1 }
        0 otherStore =
      (otherStore, ProgressResp.err 500 "Failed to update progress") ∧
    complete_session "invalid-id" 0 otherStore =
      (otherStore, CompleteResp.err 500 "Failed to complete session") := by
  decide

/-- C9: the verdict never depends on the reported confidence — two
progress calls differing only in `confidence` produce the same response
(verdict and percentage), the same sessions table, and progress rows
that agree outside the confidence column. -/
theorem update_progress_confidence_independent (url : String)
    (bsid : Option String) (bwi : Int) (bsp bex : String) (c1 c2 : ℚ)
    (now : Nat) (st : Store) :
    (update_progress url ⟨bsid, bwi, bsp, bex, c1⟩ now st).2 =
      (update_progress url ⟨bsid, bwi, bsp, bex, c2⟩ now st).2 ∧
    (update_progress url ⟨bsid, bwi, bsp, bex, c1⟩ now st).1.sessions =
      (update_progress url ⟨bsid, bwi, bsp, bex, c2⟩ now st).1.sessions ∧
    ((update_progress url ⟨bsid, bwi, bsp, bex, c1⟩ now st).1.progress.map
        eraseConfidence) =
      ((update_progress url ⟨bsid, bwi, bsp, bex, c2⟩ now st).1.progress.map
        eraseConfidence) := by
  cases bsid with
  | none => exact ⟨rfl, rfl, rfl⟩
  | some sid =>
    unfold update_progress
    cases hf : findSession st sid with
    | none => simp [hf]
    | some s =>
      by_cases h0 : s.total_words = 0 <;>
        simp [hf, h0, eraseConfidence]

/-- C10: the progress route ignores the session id in the URL — any two
URL ids give identical results; a body without `session_id` fails with
the generic error and no store change even when the URL names a real
session; and a body carrying `session_id = y` appends its row to and
moves the cursor of session `y`. -/
theorem update_progress_url_id_ignored :
    (∀ (x y : String) (body : ProgressBody) (now : Nat) (st : Store),
        update_progress x body now st = update_progress y body now st) ∧
    (∀ (x : String) (body : ProgressBody) (now : Nat) (st : Store),
        body.session_id = none →
        update_progress x body now st =
          (st, ProgressResp.err 500 "Failed to update progress")) ∧
    (∀ (x y : String) (body : ProgressBody) (now : Nat) (st : Store)
        (s : ReadingSession),
        body.session_id = some y → findSession st y = some s →
        (update_progress x body now st).1.progress =
          st.progress ++
            [{ id := nextProgressId st, session_id := y,
               word_index := body.word_index,
               expected_word := body.expected_word,
               spoken_word := body.spoken_word,
               is_correct := words_match (pyLower body.spoken_word)
                 (pyLower body.expected_word),
               timestamp := now, confidence_score := body.confidence }] ∧
          findSession (update_progress x body now st).1 y =
            some { s with current_word_index := body.word_index }) := by
  refine ⟨fun x y body now st => rfl, ?_, ?_⟩
  · intro x body now st h
    unfold update_progress
    rw [h]
  · intro x y body now st s hb hf
    unfold update_progress
    simp only [hb, hf]
    by_cases h0 : s.total_words = 0
    · rw [if_pos h0]
      refine ⟨rfl, ?_⟩
      unfold findSession at hf ⊢
      exact find?_map_update st.sessions y s
        { s with current_word_index := body.word_index } rfl hf
    · rw [if_neg h0]
      refine ⟨rfl, ?_⟩
      unfold findSession at hf ⊢
      exact find?_map_update st.sessions y s
        { s with current_word_index := body.word_index } rfl hf

/-- Witness for C10: with URL id "sX" but body id "s1", the row lands on
session "s1" and its cursor moves; with no body id, the call fails and
the store is untouched even though the URL names the existing "s1". -/
theorem update_progress_url_id_ignored_witness :
    update_progress "s1"
        { session_id := none, word_index := 0, spoken_word := "hello",
          expected_word := "hello", confidence := 1 } 0 sixWordsStore =
      (sixWordsStore, ProgressResp.err 500 "Failed to update progress") ∧
    (update_progress "sX" sixWordsBody 3 sixWordsStore).1.progress =
      [{ id := 1, session_id := "s1", word_index := 0,
         expected_word := "hello", spoken_word := "Hello",
         is_correct := true, timestamp := 3, confidence_score := 1 }] ∧
    findSession (update_progress "sX" sixWordsBody 3 sixWordsStore).1 "s1" =
      some { id := "s1", filename := "test.txt",
             text_content := "hello world this is a test",
             created_at := 0, completed_at := none,
             total_words := 6, current_word_index := 0 } := by
  have h2 := update_progress_url_id_ignored.2.1 "s1"
    { session_id := none, word_index := 0, spoken_word := "hello",
      expected_word := "hello", confidence := 1 } 0 sixWordsStore rfl
  have h3 := update_progress_url_id_ignored.2.2 "sX" "s1" sixWordsBody 3
    sixWordsStore sixWordsSession rfl (by decide)
  refine ⟨h2, ?_, ?_⟩
  · rw [h3.1,
      show words_match (pyLower sixWordsBody.spoken_word)
          (pyLower sixWordsBody.expected_word) = true from by decide]
    rfl
  · rw [h3.2]
    rfl

end SpeechReader
